import Mathlib

/-!
Shallow embedding of `aladdin_table.py`, the Accelergy Aladdin estimation
plug-in (class `AladdinTable` plus the module-level helper
`oneD_quadratic_interpolation`), and proofs about it.

Modelling conventions:
* Python numbers (ints and floats used as exact table data) are modelled as `ℚ`.
* A Python value that may be an int or a string (the `technology` attribute)
  is modelled by the inductive type `PyVal`; `pyEq` is Python `==` on it
  (a number never equals a string).
* Python exceptions are modelled by `Except PyErr`; each constructor of
  `PyErr` names the Python exception class the code would raise.
* The CSV files under `data/` are external data, modelled as the field values
  of a `Tables` structure; each row keeps its `latency(ns)` cell as the raw
  string the CSV holds, exactly what `row['latency(ns)']` yields in Python.
* `oneD_linear_interpolation` is imported from `accelergy.helper_functions`,
  which is outside this repository; it is modelled from the spec (see its
  doc comment).
-/

set_option autoImplicit false

/-- A Python scalar that is either a number or a string (the forms the
`technology` attribute takes). -/
inductive PyVal where
  | num : ℚ → PyVal
  | str : String → PyVal
  deriving DecidableEq, Repr

/-- Python `==` on `PyVal`: numbers compare by value, strings by value, and a
number never equals a string (as in CPython, `40 == '40'` is `False`). -/
def pyEq : PyVal → PyVal → Bool
  | .num a, .num b => a == b
  | .str a, .str b => a == b
  | _, _ => false

/-- The Python exceptions the embedded code can raise. -/
inductive PyErr where
  | keyError
  | attributeError
  | indexError
  | zeroDivisionError
  | unboundLocalError
  deriving DecidableEq, Repr

/-- One element of the `known` list passed to the interpolation helpers:
the Python dict `{'x': <value>, 'y': <energy>}`. -/
structure Point where
  x : ℚ
  y : ℚ
  deriving DecidableEq, Repr

/-- One data row of an Aladdin CSV table, as `csv.DictReader` yields it:
the `latency(ns)` cell is kept as a raw string, the two energy cells are the
numbers `float(...)` would produce. -/
structure CsvRow where
  latency_ns : String
  idle_energy : ℚ
  dynamic_energy : ℚ
  deriving DecidableEq, Repr

/-- The `attributes` dictionary of a request, restricted to the keys the
plug-in reads.  `technology` and `latency` are optional because the code
guards (or fails to guard) their absence; the remaining keys are read
unconditionally by the rules that use them. -/
structure Attributes where
  technology : Option PyVal
  latency : Option ℚ
  datawidth : ℚ
  width : ℚ
  num : ℚ
  deriving DecidableEq, Repr

/-- The `interface` dictionary passed to every entry point: keys
`class_name`, `attributes`, `action_name`, `arguments`. -/
structure Interface where
  class_name : String
  attributes : Attributes
  action_name : String
  arguments : List (String × PyVal)
  deriving DecidableEq, Repr

/-- The module-level constant `ALADDIN_ACCURACY = 70`. -/
def ALADDIN_ACCURACY : ℤ := 70

/-- `self.supported_pc`, the supported primitive-class list set in
`AladdinTable.__init__`. -/
def supported_pc : List String :=
  ["regfile",
   "bitwise", "adder", "multiplier", "mac",
   "fp32adder", "fp32multiplier", "fp32mac",
   "fp64adder", "fp64multiplier", "fp64mac"]

/-- `AladdinTable.primitive_action_supported`.  When `technology` is absent
from `attributes` the Python code prints a warning and then evaluates
`interface['attributes']['technology']` anyway, raising `KeyError`; the
print is a side effect with no bearing on the returned value, so the absent
case maps directly to `.error .keyError`. -/
def primitive_action_supported (interface : Interface) : Except PyErr ℤ :=
  match interface.attributes.technology with
  | none => .error .keyError
  | some technology =>
      if (pyEq technology (.num 40) || pyEq technology (.str "40")
            || pyEq technology (.str "40nm"))
          && supported_pc.contains interface.class_name then
        .ok ALADDIN_ACCURACY
      else
        .ok 0

/-- The latency discretization step inside
`AladdinTable.query_csv_using_latency`:
`latency = math.ceil(latency)`, then
`if latency > 10: latency = 10` / `elif latency > 6: latency = 6`. -/
def discretize_latency (latency : ℚ) : ℤ :=
  let l : ℤ := ⌈latency⌉
  if l > 10 then 10
  else if l > 6 then 6
  else l

/-- `AladdinTable.query_csv_using_latency`, with the CSV file contents passed
in as `table`.  The Python loop takes the first row whose `latency(ns)` cell
equals `str(latency)` and breaks; if no row matches, the final
`return energy` raises `UnboundLocalError` because `energy` was never
assigned. -/
def query_csv_using_latency (interface : Interface) (table : List CsvRow) :
    Except PyErr ℚ :=
  let latency : ℚ := interface.attributes.latency.getD 5
  let lat : ℤ := discretize_latency latency
  match table.find? (fun row => row.latency_ns == toString lat) with
  | some row =>
      .ok (if interface.action_name == "idle" then row.idle_energy
           else row.dynamic_energy)
  | none => .error .unboundLocalError

/-- Modelled from the spec: `oneD_linear_interpolation` lives in
`accelergy.helper_functions`, outside this repository.  Spec §1 and §4.4
specify its contract as one-dimensional linear interpolation through the two
anchor points supplied in `known` ("energy scales proportionally with width
given the two anchor points (0,0) and (32, reference_energy)"). -/
def oneD_linear_interpolation (desired_x : ℚ) (known : List Point) : ℚ :=
  match known[0]?, known[1]? with
  | some k0, some k1 =>
      (k1.y - k0.y) / (k1.x - k0.x) * (desired_x - k0.x) + k0.y
  | _, _ => 0

/-- The module-level helper `oneD_quadratic_interpolation`.  The Python body
starts from `ordered_list = []`; when `known[1]['x'] < known[0]['x']` it
executes `ordered_list[0] = known[1]['x']`, an assignment to index 0 of an
empty list, which raises `IndexError`; otherwise `ordered_list = known`.
When the two anchor x values are equal the slope division raises
`ZeroDivisionError`.  A `known` list with fewer than two elements raises
`IndexError` at the first subscript. -/
def oneD_quadratic_interpolation (desired_x : ℚ) (known : List Point) :
    Except PyErr ℚ :=
  match known[0]?, known[1]? with
  | some k0, some k1 =>
      if k1.x < k0.x then .error .indexError
      else if k1.x = k0.x then .error .zeroDivisionError
      else
        let slope : ℚ := (k1.y - k0.y) / (k1.x - k0.x)
        .ok (slope ^ 2 * (desired_x - k0.x) + k0.y)
  | _, _ => .error .indexError

/-- The contents of the CSV files under `data/`, one field per file the
rules open. -/
structure Tables where
  reg : List CsvRow
  adder : List CsvRow
  fp_sp_adder : List CsvRow
  fp_dp_adder : List CsvRow
  multiplier : List CsvRow
  fp_sp_multiplier : List CsvRow
  fp_dp_multiplier : List CsvRow
  bitwise : List CsvRow
  deriving DecidableEq, Repr

/-- `AladdinTable.regFile_estimate_energy` (note the capital F in the method
name): `data/reg.csv` lookup times `attributes['width']`. -/
def regFile_estimate_energy (t : Tables) (interface : Interface) :
    Except PyErr ℚ := do
  let reg_energy ← query_csv_using_latency interface t.reg
  pure (reg_energy * interface.attributes.width)

/-- `AladdinTable.adder_estimate_energy`: `data/adder.csv` lookup, then
linear interpolation in `datawidth` against anchors (0,0) and (32, energy). -/
def adder_estimate_energy (t : Tables) (interface : Interface) :
    Except PyErr ℚ := do
  let csv_energy ← query_csv_using_latency interface t.adder
  pure (oneD_linear_interpolation interface.attributes.datawidth
    [⟨0, 0⟩, ⟨32, csv_energy⟩])

/-- `AladdinTable.fp32adder_estimate_energy`: same as the adder rule over
`data/fp_sp_adder.csv`. -/
def fp32adder_estimate_energy (t : Tables) (interface : Interface) :
    Except PyErr ℚ := do
  let csv_energy ← query_csv_using_latency interface t.fp_sp_adder
  pure (oneD_linear_interpolation interface.attributes.datawidth
    [⟨0, 0⟩, ⟨32, csv_energy⟩])

/-- `AladdinTable.fp64adder_estimate_energy`: same as the adder rule over
`data/fp_dp_adder.csv`. -/
def fp64adder_estimate_energy (t : Tables) (interface : Interface) :
    Except PyErr ℚ := do
  let csv_energy ← query_csv_using_latency interface t.fp_dp_adder
  pure (oneD_linear_interpolation interface.attributes.datawidth
    [⟨0, 0⟩, ⟨32, csv_energy⟩])

/-- `AladdinTable.multiplier_estimate_energy`: `data/multiplier.csv` lookup,
then quadratic interpolation in `datawidth` against anchors (0,0) and
(32, energy). -/
def multiplier_estimate_energy (t : Tables) (interface : Interface) :
    Except PyErr ℚ := do
  let csv_energy ← query_csv_using_latency interface t.multiplier
  oneD_quadratic_interpolation interface.attributes.datawidth
    [⟨0, 0⟩, ⟨32, csv_energy⟩]

/-- `AladdinTable.fp32multiplier_estimate_energy`: same as the multiplier
rule over `data/fp_sp_multiplier.csv`. -/
def fp32multiplier_estimate_energy (t : Tables) (interface : Interface) :
    Except PyErr ℚ := do
  let csv_energy ← query_csv_using_latency interface t.fp_sp_multiplier
  oneD_quadratic_interpolation interface.attributes.datawidth
    [⟨0, 0⟩, ⟨32, csv_energy⟩]

/-- `AladdinTable.fp64multiplier_estimate_energy`: same as the multiplier
rule over `data/fp_dp_multiplier.csv`. -/
def fp64multiplier_estimate_energy (t : Tables) (interface : Interface) :
    Except PyErr ℚ := do
  let csv_energy ← query_csv_using_latency interface t.fp_dp_multiplier
  oneD_quadratic_interpolation interface.attributes.datawidth
    [⟨0, 0⟩, ⟨32, csv_energy⟩]

/-- `AladdinTable.mac_estimate_energy`: adder energy plus multiplier energy,
both from the same interface. -/
def mac_estimate_energy (t : Tables) (interface : Interface) :
    Except PyErr ℚ := do
  let adder_energy ← adder_estimate_energy t interface
  let multiplier_energy ← multiplier_estimate_energy t interface
  pure (adder_energy + multiplier_energy)

/-- `AladdinTable.fp32mac_estimate_energy`: fp32 adder energy plus fp32
multiplier energy, both from the same interface. -/
def fp32mac_estimate_energy (t : Tables) (interface : Interface) :
    Except PyErr ℚ := do
  let fpadder_energy ← fp32adder_estimate_energy t interface
  let fpmultiplier_energy ← fp32multiplier_estimate_energy t interface
  pure (fpadder_energy + fpmultiplier_energy)

/-- `AladdinTable.fp64mac_estimate_energy`: fp64 adder energy plus fp64
multiplier energy, both from the same interface. -/
def fp64mac_estimate_energy (t : Tables) (interface : Interface) :
    Except PyErr ℚ := do
  let fpadder_energy ← fp64adder_estimate_energy t interface
  let fpmultiplier_energy ← fp64multiplier_estimate_energy t interface
  pure (fpadder_energy + fpmultiplier_energy)

/-- `AladdinTable.bitwise_estimate_energy`: `data/bitwise.csv` lookup times
`attributes['num']`. -/
def bitwise_estimate_energy (t : Tables) (interface : Interface) :
    Except PyErr ℚ := do
  let csv_energy ← query_csv_using_latency interface t.bitwise
  pure (csv_energy * interface.attributes.num)

/-- The `getattr(self, query_function_name)` lookup restricted to the
`*_estimate_energy` methods `AladdinTable` actually defines (the only names
`estimate_energy` ever constructs are of this shape).  Note the register-file
method is spelled `regFile_estimate_energy`, capital F, and Python attribute
lookup is case sensitive. -/
def getattr_estimate (name : String) :
    Option (Tables → Interface → Except PyErr ℚ) :=
  if name = "regFile_estimate_energy" then some regFile_estimate_energy
  else if name = "mac_estimate_energy" then some mac_estimate_energy
  else if name = "fp32mac_estimate_energy" then some fp32mac_estimate_energy
  else if name = "fp64mac_estimate_energy" then some fp64mac_estimate_energy
  else if name = "adder_estimate_energy" then some adder_estimate_energy
  else if name = "fp32adder_estimate_energy" then some fp32adder_estimate_energy
  else if name = "fp64adder_estimate_energy" then some fp64adder_estimate_energy
  else if name = "multiplier_estimate_energy" then some multiplier_estimate_energy
  else if name = "fp32multiplier_estimate_energy" then
    some fp32multiplier_estimate_energy
  else if name = "fp64multiplier_estimate_energy" then
    some fp64multiplier_estimate_energy
  else if name = "bitwise_estimate_energy" then some bitwise_estimate_energy
  else none

/-- `AladdinTable.estimate_energy`: build
`query_function_name = class_name + '_estimate_energy'`, fetch the method by
that name, call it.  A name with no matching attribute makes `getattr` raise
`AttributeError`. -/
def estimate_energy (t : Tables) (interface : Interface) : Except PyErr ℚ :=
  match getattr_estimate (interface.class_name ++ "_estimate_energy") with
  | some f => f t interface
  | none => .error .attributeError

/-! ## Helper lemmas and concrete fixtures -/

/-- `discretize_latency` written without the intermediate `let`. -/
theorem discretize_latency_eq (x : ℚ) :
    discretize_latency x =
      if ⌈x⌉ > 10 then 10 else if ⌈x⌉ > 6 then 6 else ⌈x⌉ := rfl

/-- Python `==` on `PyVal` agrees with propositional equality. -/
theorem pyEq_iff (a b : PyVal) : pyEq a b = true ↔ a = b := by
  cases a <;> cases b <;> simp [pyEq]

/-- If filtering a list by `p` leaves exactly `[a]`, then `a` is also the
first element satisfying `p`. -/
theorem find_of_filter_single {α : Type} (p : α → Bool) (a : α) :
    ∀ l : List α, l.filter p = [a] → l.find? p = some a := by
  intro l
  induction l with
  | nil => intro h; simp at h
  | cons b t ih =>
      intro h
      by_cases hb : p b
      · rw [List.filter_cons_of_pos hb] at h
        rw [List.find?_cons_of_pos _ hb]
        exact congrArg some (List.cons_eq_cons.mp h).1
      · rw [List.filter_cons_of_neg hb] at h
        rw [List.find?_cons_of_neg _ hb]
        exact ih h
  
/-- Concrete table contents used by the witnesses: one row per table, all at
the 6 ns bucket. -/
def testTables : Tables :=
  { reg := [⟨"6", 3, 5⟩]
  , adder := [⟨"6", 2, 4⟩]
  , fp_sp_adder := [⟨"6", 1, 3⟩]
  , fp_dp_adder := [⟨"6", 5, 7⟩]
  , multiplier := [⟨"6", 0, 1⟩]
  , fp_sp_multiplier := [⟨"6", 2, 6⟩]
  , fp_dp_multiplier := [⟨"6", 1, 9⟩]
  , bitwise := [⟨"6", 1, 2⟩] }

/-- A concrete supported request used by the witnesses. -/
def testInterface : Interface :=
  { class_name := "multiplier"
  , attributes :=
      { technology := some (.num 40), latency := some 6
      , datawidth := 32, width := 8, num := 4 }
  , action_name := "read"
  , arguments := [] }

/-- Unfolding lemma for `query_csv_using_latency` with the intermediate
`let`s removed. -/
theorem query_csv_using_latency_eq (interface : Interface)
    (table : List CsvRow) :
    query_csv_using_latency interface table =
      match table.find? (fun row => row.latency_ns ==
          toString (discretize_latency (interface.attributes.latency.getD 5))) with
      | some row => .ok (if interface.action_name == "idle" then row.idle_energy
                         else row.dynamic_energy)
      | none => .error .unboundLocalError := rfl

/-- Unfolding lemma for `oneD_quadratic_interpolation` once the two anchor
reads are known to succeed. -/
theorem oneD_quadratic_interpolation_eq (dx : ℚ) (known : List Point)
    (k0 k1 : Point) (h0 : known[0]? = some k0) (h1 : known[1]? = some k1) :
    oneD_quadratic_interpolation dx known =
      if k1.x < k0.x then .error .indexError
      else if k1.x = k0.x then .error .zeroDivisionError
      else .ok (((k1.y - k0.y) / (k1.x - k0.x)) ^ 2 * (dx - k0.x) + k0.y) := by
  unfold oneD_quadratic_interpolation
  rw [h0, h1]

/-! ## Claim theorems -/

/-- Claim C1, counterexample: the code does not bucket the way the claim
says.  A ceiling-rounded value of 7 lies in (6,10] but is snapped to 6, not
10, and a value of 3 is at most 6 but keeps its own value 3 instead of
mapping to the 6 ns bucket. -/
theorem C1_counterexample :
    (discretize_latency 7 = 6 ∧ discretize_latency 7 ≠ 10) ∧
    (discretize_latency 3 = 3 ∧ discretize_latency 3 ≠ 6) := by
  decide

/-- Claim C1, amended: the timing discretization of every leaf rule maps a
value with ceiling at most 6 to its own ceiling (no snapping to 6 happens
below 6), maps every value in (6,10] down to the 6 ns bucket, and maps every
value greater than 10 down to the 10 ns bucket; the table row is then
selected by exact string match on that bucket. -/
theorem C1_discretization_amended :
    (∀ x : ℚ, ⌈x⌉ ≤ 6 → discretize_latency x = ⌈x⌉) ∧
    (∀ x : ℚ, 6 < x → x ≤ 10 → discretize_latency x = 6) ∧
    (∀ x : ℚ, 10 < x → discretize_latency x = 10) ∧
    (∀ (interface : Interface) (table : List CsvRow) (row : CsvRow),
      table.find? (fun r => r.latency_ns ==
        toString (discretize_latency (interface.attributes.latency.getD 5)))
          = some row →
      query_csv_using_latency interface table =
        .ok (if interface.action_name == "idle" then row.idle_energy
             else row.dynamic_energy)) := by
  refine ⟨fun x h => ?_, fun x h1 h2 => ?_, fun x h => ?_,
    fun interface table row hfind => ?_⟩
  · rw [discretize_latency_eq]
    split_ifs <;> omega
  · have ha : (6 : ℤ) < ⌈x⌉ := Int.lt_ceil.mpr (by exact_mod_cast h1)
    have hb : ⌈x⌉ ≤ 10 := Int.ceil_le.mpr (by exact_mod_cast h2)
    rw [discretize_latency_eq]
    split_ifs <;> omega
  · have ha : (10 : ℤ) < ⌈x⌉ := Int.lt_ceil.mpr (by exact_mod_cast h)
    rw [discretize_latency_eq]
    split_ifs <;> omega
  · rw [query_csv_using_latency_eq, hfind]

/-- Claim C1, witness: the amended bucket map evaluated at 3, 7, 12, and one
concrete table lookup. -/
theorem C1_discretization_amended_witness :
    discretize_latency 3 = ⌈(3 : ℚ)⌉ ∧ discretize_latency 7 = 6 ∧
    discretize_latency 12 = 10 ∧
    query_csv_using_latency testInterface [⟨"6", 0, 1⟩] = .ok 1 :=
  ⟨C1_discretization_amended.1 3 (by decide),
   C1_discretization_amended.2.1 7 (by norm_num) (by norm_num),
   C1_discretization_amended.2.2.1 12 (by norm_num),
   C1_discretization_amended.2.2.2 testInterface [⟨"6", 0, 1⟩] ⟨"6", 0, 1⟩ rfl⟩

/-- Claim C5, counterexample: discretization is not idempotent.  For input
11 the first pass gives the 10 bucket, but discretizing 10 again gives 6. -/
theorem C5_counterexample :
    discretize_latency 11 = 10 ∧
    discretize_latency ((discretize_latency 11 : ℤ) : ℚ) = 6 ∧
    discretize_latency ((discretize_latency 11 : ℤ) : ℚ) ≠ discretize_latency 11 := by
  decide

/-- Claim C5, amended: the timing discretization is monotone, and it is
idempotent only on inputs whose ceiling is at most 10 (the 10 bucket
produced by larger inputs re-discretizes to 6). -/
theorem C5_discretization_amended :
    (∀ x y : ℚ, x ≤ y → discretize_latency x ≤ discretize_latency y) ∧
    (∀ x : ℚ, ⌈x⌉ ≤ 10 →
      discretize_latency ((discretize_latency x : ℤ) : ℚ) = discretize_latency x) := by
  constructor
  · intro x y h
    have hc : ⌈x⌉ ≤ ⌈y⌉ := Int.ceil_le_ceil h
    rw [discretize_latency_eq, discretize_latency_eq]
    split_ifs <;> omega
  · intro x h
    rw [discretize_latency_eq, discretize_latency_eq, Int.ceil_intCast]
    split_ifs <;> omega

/-- Claim C5, witness: monotonicity applied at 7 ≤ 12 and idempotence
applied at 7. -/
theorem C5_discretization_amended_witness :
    discretize_latency 7 ≤ discretize_latency 12 ∧
    discretize_latency ((discretize_latency 7 : ℤ) : ℚ) = discretize_latency 7 :=
  ⟨C5_discretization_amended.1 7 12 (by norm_num),
   C5_discretization_amended.2 7 (by decide)⟩

/-- Claim C2: `regfile` is in the supported-class set, yet dispatching it
fails with the rule-not-found condition (`AttributeError`), because
`estimate_energy` builds the name `regfile_estimate_energy` while the method
is spelled `regFile_estimate_energy`; every other supported class does find
its rule. -/
theorem C2_regfile_dispatch :
    "regfile" ∈ supported_pc ∧
    (∀ (t : Tables) (interface : Interface), interface.class_name = "regfile" →
      estimate_energy t interface = .error .attributeError) ∧
    (∀ cn : String, cn ∈ supported_pc → cn ≠ "regfile" →
      (getattr_estimate (cn ++ "_estimate_energy")).isSome = true) := by
  refine ⟨by decide, fun t interface h => ?_, fun cn h hne => ?_⟩
  · unfold estimate_energy
    rw [h]
    rfl
  · simp only [supported_pc, List.mem_cons, List.not_mem_nil, or_false] at h
    rcases h with rfl | rfl | rfl | rfl | rfl | rfl | rfl | rfl | rfl | rfl | rfl
    · exact absurd rfl hne
    all_goals rfl

/-- Claim C2, witness: the dispatch failure evaluated at one concrete
supported `regfile` request. -/
theorem C2_regfile_dispatch_witness :
    estimate_energy testTables
      { class_name := "regfile"
      , attributes := { technology := some (.num 40), latency := some 6
                      , datawidth := 32, width := 8, num := 4 }
      , action_name := "read", arguments := [] } = .error .attributeError :=
  C2_regfile_dispatch.2.1 testTables _ rfl

/-- Claim C3, counterexample: with a multiplier table whose reference
dynamic energy at the 6 ns bucket is 1, a request with datawidth 32 yields
1/32, not the reference value 1: the squared-slope formula does not collapse
to the anchor at the anchor point. -/
theorem C3_counterexample :
    query_csv_using_latency testInterface testTables.multiplier = .ok 1 ∧
    testInterface.attributes.datawidth = 32 ∧
    multiplier_estimate_energy testTables testInterface = .ok (1 / 32) ∧
    (1 / 32 : ℚ) ≠ 1 := by
  have hq : query_csv_using_latency testInterface testTables.multiplier = .ok 1 := rfl
  have hw : testInterface.attributes.datawidth = 32 := rfl
  refine ⟨hq, hw, ?_, by norm_num⟩
  simp only [multiplier_estimate_energy, hq, hw, bind, Except.bind,
    oneD_quadratic_interpolation]
  norm_num

/-- Claim C3, amended: for every multiplier-family request, the quadratic
width interpolation at datawidth 32 returns `E ^ 2 / 32` where `E` is the
table's reference energy (equal to `E` only when `E` is 0 or 32), and at
datawidth 0 it returns the anchor value 0. -/
theorem C3_quadratic_amended :
    ∀ (t : Tables) (interface : Interface) (E : ℚ),
      (query_csv_using_latency interface t.multiplier = .ok E →
        (interface.attributes.datawidth = 32 →
          multiplier_estimate_energy t interface = .ok (E ^ 2 / 32)) ∧
        (interface.attributes.datawidth = 0 →
          multiplier_estimate_energy t interface = .ok 0)) ∧
      (query_csv_using_latency interface t.fp_sp_multiplier = .ok E →
        (interface.attributes.datawidth = 32 →
          fp32multiplier_estimate_energy t interface = .ok (E ^ 2 / 32)) ∧
        (interface.attributes.datawidth = 0 →
          fp32multiplier_estimate_energy t interface = .ok 0)) ∧
      (query_csv_using_latency interface t.fp_dp_multiplier = .ok E →
        (interface.attributes.datawidth = 32 →
          fp64multiplier_estimate_energy t interface = .ok (E ^ 2 / 32)) ∧
        (interface.attributes.datawidth = 0 →
          fp64multiplier_estimate_energy t interface = .ok 0)) := by
  intro t interface E
  refine ⟨fun hq => ⟨fun hw => ?_, fun hw => ?_⟩,
    fun hq => ⟨fun hw => ?_, fun hw => ?_⟩,
    fun hq => ⟨fun hw => ?_, fun hw => ?_⟩⟩
  · simp only [multiplier_estimate_energy, hq, hw, bind, Except.bind,
      oneD_quadratic_interpolation]
    norm_num
    ring
  · simp only [multiplier_estimate_energy, hq, hw, bind, Except.bind,
      oneD_quadratic_interpolation]
    norm_num
  · simp only [fp32multiplier_estimate_energy, hq, hw, bind, Except.bind,
      oneD_quadratic_interpolation]
    norm_num
    ring
  · simp only [fp32multiplier_estimate_energy, hq, hw, bind, Except.bind,
      oneD_quadratic_interpolation]
    norm_num
  · simp only [fp64multiplier_estimate_energy, hq, hw, bind, Except.bind,
      oneD_quadratic_interpolation]
    norm_num
    ring
  · simp only [fp64multiplier_estimate_energy, hq, hw, bind, Except.bind,
      oneD_quadratic_interpolation]
    norm_num

/-- Claim C3, witness: the amended width-32 formula evaluated on the
concrete fixture (reference energy 1). -/
theorem C3_quadratic_amended_witness :
    multiplier_estimate_energy testTables testInterface = .ok (1 ^ 2 / 32) :=
  ((C3_quadratic_amended testTables testInterface 1).1 rfl).1 rfl

/-- Claim C4: contrary to the claim, a request whose attributes lack a
technology entry does not get the not-supported outcome: after printing the
warning the code reads `interface['attributes']['technology']`
unconditionally and raises `KeyError`. -/
theorem C4_missing_technology :
    ∀ interface : Interface, interface.attributes.technology = none →
      primitive_action_supported interface = .error .keyError := by
  intro interface h
  unfold primitive_action_supported
  rw [h]

/-- Claim C4, witness: the `KeyError` outcome evaluated at a concrete
technology-free request. -/
theorem C4_missing_technology_witness :
    primitive_action_supported
      { class_name := "adder"
      , attributes := { technology := none, latency := some 5
                      , datawidth := 32, width := 1, num := 1 }
      , action_name := "read", arguments := [] } = .error .keyError :=
  C4_missing_technology _ rfl

/-- Claim C6: with a technology attribute present, a supported class scores
the fixed accuracy constant 70 exactly for the three spellings 40, "40",
"40nm" of the supported node, scores 0 for every other technology value,
and an unsupported class scores 0 regardless of technology. -/
theorem C6_capability_score :
    ∀ (interface : Interface) (tech : PyVal),
      interface.attributes.technology = some tech →
      ((interface.class_name ∈ supported_pc →
        (primitive_action_supported interface = .ok 70 ↔
          (tech = .num 40 ∨ tech = .str "40" ∨ tech = .str "40nm"))) ∧
       (interface.class_name ∈ supported_pc →
        ¬(tech = .num 40 ∨ tech = .str "40" ∨ tech = .str "40nm") →
        primitive_action_supported interface = .ok 0) ∧
       (interface.class_name ∉ supported_pc →
        primitive_action_supported interface = .ok 0) ∧
       ALADDIN_ACCURACY = 70) := by
  intro interface tech h
  refine ⟨fun hc => ?_, fun hc hno => ?_, fun hc => ?_, rfl⟩
  · unfold primitive_action_supported
    rw [h]
    have hcont : supported_pc.contains interface.class_name = true :=
      List.elem_eq_true_of_mem hc
    simp only [hcont, Bool.and_true, ALADDIN_ACCURACY]
    constructor
    · intro hok
      by_contra hno
      push_neg at hno
      have hfalse : ¬(pyEq tech (.num 40) || pyEq tech (.str "40")
          || pyEq tech (.str "40nm")) = true := by
        simp only [Bool.or_eq_true, pyEq_iff]
        tauto
      rw [if_neg hfalse] at hok
      exact absurd (Except.ok.inj hok) (by norm_num)
    · intro hyes
      have htrue : (pyEq tech (.num 40) || pyEq tech (.str "40")
          || pyEq tech (.str "40nm")) = true := by
        simp only [Bool.or_eq_true, pyEq_iff]
        tauto
      rw [if_pos htrue]
  · unfold primitive_action_supported
    rw [h]
    dsimp only
    rw [if_neg]
    simp only [Bool.and_eq_true, Bool.or_eq_true, pyEq_iff]
    tauto
  · unfold primitive_action_supported
    rw [h]
    have hcont : supported_pc.contains interface.class_name = false := by
      rw [← Bool.not_eq_true]
      intro hx
      exact hc (List.mem_of_elem_eq_true hx)
    dsimp only
    rw [if_neg (by rw [hcont]; simp)]

/-- Claim C6, witness: the score 70 evaluated at the concrete supported
fixture (class multiplier, technology 40). -/
theorem C6_capability_score_witness :
    primitive_action_supported testInterface = .ok 70 :=
  ((C6_capability_score testInterface (.num 40) rfl).1 (by decide)).mpr
    (Or.inl rfl)

/-- Claim C7: for every request and table contents, whenever the adder-side
and multiplier-side rules of a multiply-accumulate class both succeed, the
MAC energy is exactly their sum, for the integer, fp32 and fp64 variants. -/
theorem C7_mac_additivity :
    ∀ (t : Tables) (interface : Interface) (a m : ℚ),
      (adder_estimate_energy t interface = .ok a →
        multiplier_estimate_energy t interface = .ok m →
        mac_estimate_energy t interface = .ok (a + m)) ∧
      (fp32adder_estimate_energy t interface = .ok a →
        fp32multiplier_estimate_energy t interface = .ok m →
        fp32mac_estimate_energy t interface = .ok (a + m)) ∧
      (fp64adder_estimate_energy t interface = .ok a →
        fp64multiplier_estimate_energy t interface = .ok m →
        fp64mac_estimate_energy t interface = .ok (a + m)) := by
  intro t interface a m
  refine ⟨fun ha hm => ?_, fun ha hm => ?_, fun ha hm => ?_⟩
  · simp only [mac_estimate_energy, ha, hm, bind, Except.bind, pure,
      Except.pure]
  · simp only [fp32mac_estimate_energy, ha, hm, bind, Except.bind, pure,
      Except.pure]
  · simp only [fp64mac_estimate_energy, ha, hm, bind, Except.bind, pure,
      Except.pure]

/-- Claim C7, witness: MAC additivity evaluated on the concrete fixture
(adder energy 4, multiplier energy 1/32). -/
theorem C7_mac_additivity_witness :
    mac_estimate_energy testTables testInterface = .ok (4 + 1 / 32) := by
  have hqa : query_csv_using_latency testInterface testTables.adder = .ok 4 := rfl
  have hqm : query_csv_using_latency testInterface testTables.multiplier = .ok 1 :=
    rfl
  have hw : testInterface.attributes.datawidth = 32 := rfl
  have ha : adder_estimate_energy testTables testInterface = .ok 4 := by
    simp only [adder_estimate_energy, hqa, hw, bind, Except.bind,
      oneD_linear_interpolation, pure, Except.pure]
    norm_num
  have hm : multiplier_estimate_energy testTables testInterface = .ok (1 / 32) := by
    simp only [multiplier_estimate_energy, hqm, hw, bind, Except.bind,
      oneD_quadratic_interpolation]
    norm_num
  exact (C7_mac_additivity testTables testInterface 4 (1 / 32)).1 ha hm

/-- Claim C8: for every adder-family request and table contents, the linear
width interpolation over anchors (0,0) and (32, reference energy) returns 0
at datawidth 0 and exactly the reference energy at datawidth 32, for the
integer, fp32 and fp64 adder rules. -/
theorem C8_linear_anchor_values :
    ∀ (t : Tables) (interface : Interface) (E : ℚ),
      (query_csv_using_latency interface t.adder = .ok E →
        (interface.attributes.datawidth = 0 →
          adder_estimate_energy t interface = .ok 0) ∧
        (interface.attributes.datawidth = 32 →
          adder_estimate_energy t interface = .ok E)) ∧
      (query_csv_using_latency interface t.fp_sp_adder = .ok E →
        (interface.attributes.datawidth = 0 →
          fp32adder_estimate_energy t interface = .ok 0) ∧
        (interface.attributes.datawidth = 32 →
          fp32adder_estimate_energy t interface = .ok E)) ∧
      (query_csv_using_latency interface t.fp_dp_adder = .ok E →
        (interface.attributes.datawidth = 0 →
          fp64adder_estimate_energy t interface = .ok 0) ∧
        (interface.attributes.datawidth = 32 →
          fp64adder_estimate_energy t interface = .ok E)) := by
  intro t interface E
  refine ⟨fun hq => ⟨fun hw => ?_, fun hw => ?_⟩,
    fun hq => ⟨fun hw => ?_, fun hw => ?_⟩,
    fun hq => ⟨fun hw => ?_, fun hw => ?_⟩⟩
  · simp only [adder_estimate_energy, hq, hw, bind, Except.bind,
      oneD_linear_interpolation, pure, Except.pure]
    norm_num
  · simp only [adder_estimate_energy, hq, hw, bind, Except.bind,
      oneD_linear_interpolation, pure, Except.pure]
    norm_num
  · simp only [fp32adder_estimate_energy, hq, hw, bind, Except.bind,
      oneD_linear_interpolation, pure, Except.pure]
    norm_num
  · simp only [fp32adder_estimate_energy, hq, hw, bind, Except.bind,
      oneD_linear_interpolation, pure, Except.pure]
    norm_num
  · simp only [fp64adder_estimate_energy, hq, hw, bind, Except.bind,
      oneD_linear_interpolation, pure, Except.pure]
    norm_num
  · simp only [fp64adder_estimate_energy, hq, hw, bind, Except.bind,
      oneD_linear_interpolation, pure, Except.pure]
    norm_num

/-- Claim C8, witness: the width-32 anchor value evaluated on the concrete
fixture (adder reference energy 4). -/
theorem C8_linear_anchor_values_witness :
    adder_estimate_energy testTables testInterface = .ok 4 :=
  ((C8_linear_anchor_values testTables testInterface 4).1 rfl).2 rfl

/-- Claim C9: if no table row's latency cell matches the discretized bucket,
the lookup fails with the propagated error (never a sentinel energy), and an
error from the lookup propagates through a rule to the caller; if exactly one
row matches, the lookup returns that row's idle column when the action is
"idle" and its dynamic column otherwise. -/
theorem C9_lookup_miss_and_hit :
    ∀ (interface : Interface) (table : List CsvRow),
      ((∀ row ∈ table, row.latency_ns ≠
          toString (discretize_latency (interface.attributes.latency.getD 5))) →
        query_csv_using_latency interface table = .error .unboundLocalError) ∧
      (∀ row : CsvRow,
        table.filter (fun r => r.latency_ns ==
          toString (discretize_latency (interface.attributes.latency.getD 5)))
            = [row] →
        query_csv_using_latency interface table =
          .ok (if interface.action_name == "idle" then row.idle_energy
               else row.dynamic_energy)) ∧
      (∀ (t : Tables) (e : PyErr),
        query_csv_using_latency interface t.adder = .error e →
        adder_estimate_energy t interface = .error e) := by
  intro interface table
  refine ⟨fun hmiss => ?_, fun row hone => ?_, fun t e herr => ?_⟩
  · rw [query_csv_using_latency_eq, List.find?_eq_none.mpr]
    intro row hrow
    simpa using hmiss row hrow
  · rw [query_csv_using_latency_eq, find_of_filter_single _ _ _ hone]
  · simp only [adder_estimate_energy, herr, bind, Except.bind]

/-- Claim C9, witness: miss on the empty table and hit on a one-row table,
evaluated concretely. -/
theorem C9_lookup_miss_and_hit_witness :
    query_csv_using_latency testInterface [] = .error .unboundLocalError ∧
    query_csv_using_latency testInterface [⟨"6", 0, 1⟩] = .ok 1 :=
  ⟨(C9_lookup_miss_and_hit testInterface []).1 (by simp),
   (C9_lookup_miss_and_hit testInterface [⟨"6", 0, 1⟩]).2.1 ⟨"6", 0, 1⟩
     (by decide)⟩

/-- Claim C10: `oneD_quadratic_interpolation` returns a value whenever the
two anchors are in strictly increasing x order (the only way every
multiplier rule calls it), and raises `IndexError` (the assignment to index
0 of the empty `ordered_list`) whenever the second anchor's x is smaller
than the first's. -/
theorem C10_quadratic_precondition :
    ∀ (desired_x : ℚ) (known : List Point) (k0 k1 : Point),
      known[0]? = some k0 → known[1]? = some k1 →
      ((k0.x < k1.x →
        oneD_quadratic_interpolation desired_x known =
          .ok (((k1.y - k0.y) / (k1.x - k0.x)) ^ 2 * (desired_x - k0.x)
            + k0.y)) ∧
       (k1.x < k0.x →
        oneD_quadratic_interpolation desired_x known = .error .indexError)) := by
  intro desired_x known k0 k1 h0 h1
  constructor
  · intro hlt
    rw [oneD_quadratic_interpolation_eq desired_x known k0 k1 h0 h1,
      if_neg (lt_asymm hlt), if_neg (ne_of_gt hlt)]
  · intro hlt
    rw [oneD_quadratic_interpolation_eq desired_x known k0 k1 h0 h1,
      if_pos hlt]

/-- Claim C10, witness: the ordered anchors succeed and the reversed anchors
raise, at one concrete input each. -/
theorem C10_quadratic_precondition_witness :
    oneD_quadratic_interpolation 5 [⟨0, 0⟩, ⟨32, 1⟩] =
      .ok (((1 - 0) / (32 - 0)) ^ 2 * (5 - 0) + 0) ∧
    oneD_quadratic_interpolation 5 [⟨32, 1⟩, ⟨0, 0⟩] = .error .indexError :=
  ⟨(C10_quadratic_precondition 5 [⟨0, 0⟩, ⟨32, 1⟩] ⟨0, 0⟩ ⟨32, 1⟩ rfl rfl).1
     (by norm_num),
   (C10_quadratic_precondition 5 [⟨32, 1⟩, ⟨0, 0⟩] ⟨32, 1⟩ ⟨0, 0⟩ rfl rfl).2
     (by norm_num)⟩
